import Mathlib

/-!
Verification development for the heavy-telegram-bot repository.

The Python source is shallowly embedded: pure functions become Lean
functions, stateful redis interaction becomes explicit state passing over
total maps, and fallible Python code returns `Except` values whose error
constructors name the Python exception class that would be raised.
External collaborators (telegram client, HTTP, hashing, clock, uuid) are
modelled as explicit oracle parameters; the embedded code never depends on
their internals, only on the values they return.
-/

namespace HeavyBot

/-- JSON-compatible values as decoded by Python's json module.  Numbers are
restricted to integers, which covers every value the services produce
(json floats never appear in envelope fields touched by the claims). -/
inductive Json where
  | null : Json
  | bool : Bool → Json
  | int : Int → Json
  | str : String → Json
  | arr : List Json → Json
  | obj : List (String × Json) → Json

/-- Python exception classes that the embedded code can raise. -/
inductive PyErr where
  | attributeError : PyErr
  | valueError : PyErr
  | typeError : PyErr
deriving DecidableEq

/-- First-match association lookup, the model of Python dict indexing
(dict keys are unique, so first match is the only match). -/
def findPair (k : String) : List (String × Json) → Option Json
  | [] => none
  | (k', v) :: rest => if k = k' then some v else findPair k rest

/-- Model of `d.get(key, default)`: on a non-dict receiver Python raises
AttributeError, otherwise the value under the key or the default. -/
def dGet (d : Json) (k : String) (dflt : Json) : Except PyErr Json :=
  match d with
  | .obj entries => .ok ((findPair k entries).getD dflt)
  | _ => .error .attributeError

/-- Validates the characters of a Python int literal after its first
digit: digits, with single underscores allowed only between digits. -/
def pyDigitsRest : List Char → Bool
  | [] => true
  | '_' :: rest =>
    match rest with
    | [] => false
    | c :: rest' => c.isDigit && pyDigitsRest rest'
  | c :: rest => c.isDigit && pyDigitsRest rest

/-- Validates a full unsigned Python int literal: nonempty, starts with a
digit, then `pyDigitsRest`. -/
def pyDigitsCore : List Char → Bool
  | [] => false
  | c :: rest => c.isDigit && pyDigitsRest rest

/-- Numeric value of a validated digit string (underscores skipped). -/
def decValue (cs : List Char) : Nat :=
  (cs.filter (fun c => c ≠ '_')).foldl (fun a c => 10 * a + (c.toNat - 48)) 0

/-- Model of `str.strip()` on the character list: drop leading and
trailing whitespace. -/
def pyStrip (cs : List Char) : List Char :=
  ((cs.dropWhile Char.isWhitespace).reverse.dropWhile Char.isWhitespace).reverse

/-- Model of Python `int(s)` on a string: strip surrounding whitespace,
optional sign, decimal digits with single interior underscores; `none`
models the ValueError raised on anything else. -/
def pyParseInt (s : String) : Option Int :=
  match pyStrip s.toList with
  | '+' :: rest => if pyDigitsCore rest then some (Int.ofNat (decValue rest)) else none
  | '-' :: rest => if pyDigitsCore rest then some (-(Int.ofNat (decValue rest))) else none
  | cs => if pyDigitsCore cs then some (Int.ofNat (decValue cs)) else none

/-- Model of Python `int(x)` on an arbitrary decoded-JSON value:
ints pass through, bools coerce to 0 or 1, strings are parsed
(ValueError on failure), everything else raises TypeError. -/
def pyInt (v : Json) : Except PyErr Int :=
  match v with
  | .int n => .ok n
  | .bool b => .ok (if b then 1 else 0)
  | .str s =>
    match pyParseInt s with
    | some n => .ok n
    | none => .error .valueError
  | _ => .error .typeError

/-- Python truthiness of an optional cache value (`None` and the empty
string are falsy, every other string is truthy). -/
def truthyOpt : Option String → Bool
  | none => false
  | some s => s ≠ ""

/-!  ## Event envelope (src/media-pirate/src/core/event_envelope.py)

The gateway copy (src/gateway/src/core/event_envelope.py) defines the same
dataclass with `version` and `correlation_id` swapped in field order and
without the `create` factory; `from_dict` and `to_json` are textually the
same logic, so one embedding serves both. -/

structure EventEnvelope where
  type : String
  correlation_id : String
  version : Int
  timestamp : String
  payload : List (String × Json)
  is_rate_limited : Bool

/-- Model of `dataclasses.asdict(self)`: the decoded form of the JSON text
produced by `to_json` (json.dumps then json.loads is the identity on such
string-keyed integer-numbered values, so the wire encoding is modelled at
the decoded level). -/
def EventEnvelope.asdict (e : EventEnvelope) : Json :=
  .obj [("type", .str e.type),
        ("correlation_id", .str e.correlation_id),
        ("version", .int e.version),
        ("timestamp", .str e.timestamp),
        ("payload", .obj e.payload),
        ("is_rate_limited", .bool e.is_rate_limited)]

/-- The Python dataclass performs no runtime type checking, so `from_dict`
can construct an envelope whose fields do not match their annotations;
such states lie outside this typed embedding and are reported as `none`.
Every claim only exercises well-typed field values. -/
def typedEnvelope? (t c ts p rl : Json) (vi : Int) : Option EventEnvelope :=
  match t, c, ts, p, rl with
  | .str t, .str c, .str ts, .obj p, .bool rl =>
    some { type := t, correlation_id := c, version := vi, timestamp := ts,
           payload := p, is_rate_limited := rl }
  | _, _, _, _, _ => none

/-- Model of `EventEnvelope.from_dict(d)`: every field is fetched with
`d.get` and a default (`type` and `correlation_id` default to the empty
string, `version` to 1 through `int(...)`, `is_rate_limited` to False);
no validation of any kind is performed. -/
def EventEnvelope.from_dict (d : Json) : Except PyErr (Option EventEnvelope) := do
  let t ← dGet d "type" (.str "")
  let v ← dGet d "version" (.int 1)
  let vi ← pyInt v
  let c ← dGet d "correlation_id" (.str "")
  let ts ← dGet d "timestamp" (.str "")
  let p ← dGet d "payload" (.obj [])
  let rl ← dGet d "is_rate_limited" (.bool false)
  return typedEnvelope? t c ts p rl vi

/-- The two default-argument expressions of `EventEnvelope.create` —
`str(uuid.uuid4())` and `datetime.now(timezone.utc).isoformat()` — are
evaluated exactly once, when Python executes the `def` statement; every
later call that omits the argument reuses the stored result.  This
structure holds those two definition-time values. -/
structure CreateDefaults where
  uuid0 : String
  ts0 : String

/-- Model of `EventEnvelope.create`: `none` for `correlation_id` or
`timestamp` models a call that omits the keyword argument, in which case
the definition-time default value from `defs` is used. -/
def EventEnvelope.create (defs : CreateDefaults) (type : String)
    (payload : List (String × Json)) (version : Int)
    (correlation_id : Option String) (is_rate_limited : Bool)
    (timestamp : Option String) : EventEnvelope :=
  { type := type
    version := version
    correlation_id := correlation_id.getD defs.uuid0
    timestamp := timestamp.getD defs.ts0
    payload := payload
    is_rate_limited := is_rate_limited }

/-!  ## Event router (src/media-pirate/src/core/event_router.py)

Handlers and middlewares are Python callables; the embedding keeps their
parameter-name list (what `inspect.signature` reports) and their runtime
behaviour as a function from the shared mutable envelope to a result value
and the possibly-mutated envelope.  Dependency injection resolves extra
parameters from the registry and is orthogonal to every claim, so the run
functions already close over their injected dependencies. -/

/-- Python runtime values returned by handlers and middlewares, as far as
the router inspects them (only truthiness matters). -/
inductive PyValue where
  | none : PyValue
  | bool : Bool → PyValue
  | int : Int → PyValue
  | str : String → PyValue
deriving DecidableEq

/-- Python truthiness of a `PyValue`. -/
def PyValue.truthy : PyValue → Bool
  | .none => false
  | .bool b => b
  | .int n => n ≠ 0
  | .str s => s ≠ ""

/-- A registered handler or middleware: its declared parameter names and
its behaviour on the shared envelope. -/
structure PyCallable where
  params : List String
  run : EventEnvelope → PyValue × EventEnvelope

/-- Model of `has_params(func, required_params)`: every required name
appears among the function's parameters. -/
def has_params (f : PyCallable) (required : List String) : Bool :=
  required.all (fun p => f.params.contains p)

/-- Route options normalized from the `options` dict of a `route` call. -/
structure RouteOption where
  middleware_before : List String
  middleware_after : List String
  retry_attempt : Int

/-- The default `RouteOption()` (empty lists, retry 0). -/
def RouteOption.mk0 : RouteOption :=
  { middleware_before := [], middleware_after := [], retry_attempt := 0 }

/-- Generic first-match association lookup over an arbitrary key type,
modelling Python dict indexing; insertion prepends, so the most recent
registration shadows older ones exactly as dict assignment replaces. -/
def alistFind {κ α : Type} [DecidableEq κ] (k : κ) : List (κ × α) → Option α
  | [] => none
  | (k', v) :: rest => if k = k' then some v else alistFind k rest

/-- The router's mutable registration state (`routes`, `route_options`,
`middlewares`, `middlewares_before`, `middlewares_after`). -/
structure EventRouter where
  routes : List ((String × Int) × PyCallable)
  route_options : List ((String × Int) × RouteOption)
  middlewares : List (String × PyCallable)
  middlewares_before : List String
  middlewares_after : List String

/-- The freshly constructed router. -/
def EventRouter.empty : EventRouter :=
  { routes := [], route_options := [], middlewares := [],
    middlewares_before := [], middlewares_after := [] }

/-- Model of the `route(event_type, version, options)` decorator applied
to a handler: it stores the handler and options unconditionally — the
handler's signature is not validated at registration time. -/
def EventRouter.route (r : EventRouter) (event_type : String) (version : Int)
    (options : Option RouteOption) (func : PyCallable) : EventRouter :=
  { r with
    routes := ((event_type, version), func) :: r.routes
    route_options := ((event_type, version), options.getD RouteOption.mk0) :: r.route_options }

/-- Model of `register_before_middleware(name)` applied to a function:
duplicate names and a missing `envelope` parameter raise ValueError. -/
def EventRouter.register_before_middleware (r : EventRouter) (name : String)
    (func : PyCallable) : Except PyErr EventRouter :=
  if (alistFind name r.middlewares).isSome then .error .valueError
  else if ¬ has_params func ["envelope"] then .error .valueError
  else .ok { r with middlewares := (name, func) :: r.middlewares
                    middlewares_before := r.middlewares_before ++ [name] }

/-- Model of `register_after_middleware(name)` applied to a function. -/
def EventRouter.register_after_middleware (r : EventRouter) (name : String)
    (func : PyCallable) : Except PyErr EventRouter :=
  if (alistFind name r.middlewares).isSome then .error .valueError
  else if ¬ has_params func ["envelope"] then .error .valueError
  else .ok { r with middlewares := (name, func) :: r.middlewares
                    middlewares_after := r.middlewares_after ++ [name] }

/-- Model of `register_middleware(name)` applied to a function: the
middleware is named but not activated globally. -/
def EventRouter.register_middleware (r : EventRouter) (name : String)
    (func : PyCallable) : Except PyErr EventRouter :=
  if (alistFind name r.middlewares).isSome then .error .valueError
  else if ¬ has_params func ["envelope"] then .error .valueError
  else .ok { r with middlewares := (name, func) :: r.middlewares }

/-- Walks the list keeping every element not seen before;
`seen` accumulates the names already kept. -/
def dedupFirstAux (seen : List String) : List String → List String
  | [] => []
  | x :: xs =>
    if x ∈ seen then dedupFirstAux seen xs
    else x :: dedupFirstAux (x :: seen) xs

/-- Model of `list(dict.fromkeys(l))`: de-duplication keeping the first
occurrence of each element, preserving order. -/
def dedupFirst (l : List String) : List String :=
  dedupFirstAux [] l

/-- Errors `dispatch` can raise, one constructor per exception class. -/
inductive DispatchErr where
  | routeNotFound (event_type : String) (version : Int)
  | handlerSignature (event_type : String)
  | middlewareRegistration (name : String) (message : String)
  | middlewareExecution (name : String) (phase : String)
deriving DecidableEq

/-- One entry of the execution trace of a dispatch: a middleware ran, or
the handler ran. -/
inductive TraceEv where
  | mw (name : String)
  | handler
deriving DecidableEq

/-- The dictionary `dispatch` returns on success. -/
structure DispatchResult where
  handler_result : PyValue
  correlation_id : String
  middlewares_before_result : List (String × PyValue)
  middlewares_after_result : List (String × PyValue)
deriving DecidableEq

/-- Runs one middleware phase of `dispatch`: resolve each name (an
unresolved name raises MiddlewareRegistrationError), execute it on the
shared envelope, abort with MiddlewareExecutionError on a falsy result,
and accumulate named results.  Also returns the execution trace. -/
def runMwChain (mws : List (String × PyCallable)) (phase msg : String) :
    List String → EventEnvelope →
    List TraceEv × Except DispatchErr (List (String × PyValue) × EventEnvelope)
  | [], e => ([], .ok ([], e))
  | n :: rest, e =>
    match alistFind n mws with
    | Option.none => ([], .error (.middlewareRegistration n msg))
    | some m =>
      let ve := m.run e
      if ve.1.truthy then
        let tr := runMwChain mws phase msg rest ve.2
        (.mw n :: tr.1,
         match tr.2 with
         | .ok (vs, e'') => .ok ((n, ve.1) :: vs, e'')
         | .error err => .error err)
      else ([.mw n], .error (.middlewareExecution n phase))

/-- Model of `EventRouter.dispatch(envelope)`.  `corrSlot` is the value
the contextvar-backed `get_correlation_id()` returns during the dispatch.
Returns the execution trace alongside the result. -/
def EventRouter.dispatch (r : EventRouter) (corrSlot : String) (e : EventEnvelope) :
    List TraceEv × Except DispatchErr DispatchResult :=
  match alistFind (e.type, e.version) r.routes with
  | Option.none => ([], .error (.routeNotFound e.type e.version))
  | some handler =>
    if ¬ has_params handler ["envelope"] then
      ([], .error (.handlerSignature e.type))
    else
      let options := (alistFind (e.type, e.version) r.route_options).getD RouteOption.mk0
      let unique_middleware_before :=
        dedupFirst (r.middlewares_before ++ options.middleware_before)
      let unique_middleware_after :=
        dedupFirst (r.middlewares_after ++ options.middleware_after)
      let before := runMwChain r.middlewares "before" "No before middleware registered"
        unique_middleware_before e
      match before.2 with
      | .error err => (before.1, .error err)
      | .ok (bvals, e1) =>
        let hres := handler.run e1
        let after := runMwChain r.middlewares "after" "No after middleware registered"
          unique_middleware_after hres.2
        match after.2 with
        | .error err => (before.1 ++ [.handler] ++ after.1, .error err)
        | .ok (avals, _) =>
          (before.1 ++ [.handler] ++ after.1,
           .ok { handler_result := hres.1
                 correlation_id := corrSlot
                 middlewares_before_result := bvals
                 middlewares_after_result := avals })

/-- Model of `get_route(envelope)`: pure lookup. -/
def EventRouter.get_route (r : EventRouter) (e : EventEnvelope) : Option PyCallable :=
  alistFind (e.type, e.version) r.routes

/-!  ## Decimal rendering

The redis keys interpolate integers with `str(...)`, i.e. `Nat.repr` in
the embedding.  Distinct window starts must give distinct keys, so we
prove `Nat.repr` injective via a structural recasting of core's
fuel-based `Nat.toDigitsCore`. -/

/-- Decimal digit characters of `n`, most significant first; the
fuel-free counterpart of `Nat.toDigits 10`. -/
def decChars (n : Nat) : List Char :=
  if _h : n < 10 then [Nat.digitChar n]
  else decChars (n / 10) ++ [Nat.digitChar (n % 10)]
termination_by n
decreasing_by exact Nat.div_lt_self (by omega) (by omega)

/-!  ## Rate limiter (src/media-pirate/src/core/rate_limiter.py) -/

/-- The limiter's configuration; the constructor defaults (and the values
with which every service instantiates it) are window 60 s and
max_requests 5. -/
structure FixedWindowRateLimiter where
  window : Nat
  max_requests : Nat

/-- The limiter as constructed by the services: all keyword defaults. -/
def defaultLimiter : FixedWindowRateLimiter :=
  { window := 60, max_requests := 5 }

/-- The slice of redis the limiter touches: integer counters (a GET of a
missing key returns None, which the code coerces to 0, and INCR starts a
missing key at 0) and per-key TTLs. -/
structure RateCache where
  counters : String → Nat
  ttls : String → Option Nat

/-- The cache state with no keys set. -/
def emptyRateCache : RateCache :=
  { counters := fun _ => 0, ttls := fun _ => none }

/-- Model of `_get_redis_key`: the window start is
`int(time() // window) * window` and the key interpolates it with the
user id. -/
def FixedWindowRateLimiter.redis_key (lim : FixedWindowRateLimiter)
    (now : Nat) (user : String) : String :=
  "rate_limit:" ++ (user ++ (":" ++ Nat.repr (now / lim.window * lim.window)))

/-- Model of `is_allowed(user_id)`: reads the counter (0 when missing)
and compares it to `max_requests`; it takes the cache state and returns
only a boolean, so it never mutates the counter. -/
def FixedWindowRateLimiter.is_allowed (lim : FixedWindowRateLimiter)
    (st : RateCache) (now : Nat) (user : String) : Bool :=
  decide (st.counters (lim.redis_key now user) < lim.max_requests)

/-- Model of `increment(user_id)`: INCR the counter, attach a TTL equal
to the window length exactly when the post-increment value is 1, and
return the new count alongside the new cache state. -/
def FixedWindowRateLimiter.increment (lim : FixedWindowRateLimiter)
    (st : RateCache) (now : Nat) (user : String) : Nat × RateCache :=
  let k := lim.redis_key now user
  let current := st.counters k + 1
  let counters' := fun k' => if k' = k then current else st.counters k'
  let ttls' :=
    if current = 1 then fun k' => if k' = k then some lim.window else st.ttls k'
    else st.ttls
  (current, { counters := counters', ttls := ttls' })

/-- `n` successive `increment` calls for the same user at the same
instant, returning the final cache state. -/
def incrementN (lim : FixedWindowRateLimiter) (st : RateCache)
    (now : Nat) (user : String) : Nat → RateCache
  | 0 => st
  | n + 1 => (lim.increment (incrementN lim st now user n) now user).2

/-!  ## Gateway cache state

The slice of redis the gateway handlers touch: plain string keys with
optional TTLs, and hashes.  Byte values decode to the same strings, so
values are modelled as strings directly. -/

structure GatewayCache where
  strings : String → Option String
  strTtls : String → Option Nat
  hashes : String → String → Option String

/-- Redis SET with EX: store the value and attach the TTL. -/
def GatewayCache.setEx (st : GatewayCache) (k v : String) (ttl : Nat) : GatewayCache :=
  { st with
    strings := fun k' => if k' = k then some v else st.strings k'
    strTtls := fun k' => if k' = k then some ttl else st.strTtls k' }

/-- Redis SET with NX and EX: succeeds (returning true) only when the key
is absent; on an existing key it changes nothing and returns a falsy
response. -/
def GatewayCache.setNxEx (st : GatewayCache) (k v : String) (ttl : Nat) :
    Bool × GatewayCache :=
  if (st.strings k).isSome then (false, st) else (true, st.setEx k v ttl)

/-- Redis DEL on a string key: removes the value and its TTL. -/
def GatewayCache.del (st : GatewayCache) (k : String) : GatewayCache :=
  { st with
    strings := fun k' => if k' = k then none else st.strings k'
    strTtls := fun k' => if k' = k then none else st.strTtls k' }

/-- Redis HSET of one field. -/
def GatewayCache.hset (st : GatewayCache) (k f v : String) : GatewayCache :=
  { st with
    hashes := fun k' f' => if k' = k ∧ f' = f then some v else st.hashes k' f' }

/-- Redis HDEL of two fields of one hash. -/
def GatewayCache.hdel2 (st : GatewayCache) (k f1 f2 : String) : GatewayCache :=
  { st with
    hashes := fun k' f' =>
      if k' = k ∧ (f' = f1 ∨ f' = f2) then none else st.hashes k' f' }

/-!  ## Authenticator (src/gateway/src/authenticate.py) -/

/-- Model of `Authenticator.is_admin`: exact numeric equality with the
configured admin user id. -/
def Authenticator.is_admin (admin : Int) (user_id : Int) : Bool :=
  decide (admin = user_id)

/-- Model of `Authenticator.is_allowed(user_id, chat_id, ctx)`: both ids
are converted with `int(...)`; a ValueError on either returns False
before the admin id or the cache is consulted.  Otherwise the result is
`is_admin(user_id) or bool(redis.get("graced_chat:" + str(chat_id)))` —
note the Python truthiness conversion of the fetched value. -/
def Authenticator.is_allowed (admin : Int) (user_id chat_id : String)
    (redis : String → Option String) : Bool :=
  match pyParseInt user_id, pyParseInt chat_id with
  | some ui, some ci =>
    Authenticator.is_admin admin ui ||
      truthyOpt (redis ("graced_chat:" ++ Int.repr ci))
  | _, _ => false

/-!  ## Optimistic-reply cleanup (src/gateway/src/telegram_message_helper.py) -/

/-- Model of `safe_int`: `None` stays `None`, otherwise the (decoded)
string goes through `int(...)` and any ValueError/TypeError becomes
`None`. -/
def safe_int (value : Option String) : Option Int :=
  value.bind pyParseInt

/-- Model of `optimistic_reply_cleanup`: read the `message_id` and
`chat_id` fields of the correlation hash; when both convert to ints,
delete the chat message and HDEL the two fields; otherwise do nothing.
Returns the new cache state and the list of (chat_id, message_id) chat
messages deleted. -/
def optimistic_reply_cleanup (st : GatewayCache) (corr : String) :
    GatewayCache × List (Int × Int) :=
  let composite_key := "correlation_id:" ++ (corr ++ ":optimistic_reply")
  let message_id := safe_int (st.hashes composite_key "message_id")
  let chat_id := safe_int (st.hashes composite_key "chat_id")
  match message_id, chat_id with
  | some mi, some ci =>
    (st.hdel2 composite_key "message_id" "chat_id", [(ci, mi)])
  | _, _ => (st, [])

/-!  ## Ready-event handlers (src/gateway/src/handlers) -/

/-- Python truthiness of a decoded-JSON value, as used by
`all([pre_signed_url, message_id, chat_id])`. -/
def truthyJ : Json → Bool
  | .null => false
  | .bool b => b
  | .int n => n ≠ 0
  | .str s => s ≠ ""
  | .arr l => !l.isEmpty
  | .obj l => !l.isEmpty

/-- External collaborators of the ready handlers, as oracles:
`hashBaseUrl` stands for `sha256(base_url(presigned_url).encode())
.hexdigest()` (urlparse plus hashlib), the booleans for the telegram and
HTTP calls, and `uploadFileId` for the `file_id` of the media message
telegram returns after the upload. -/
structure TgEnv where
  hashBaseUrl : String → String
  sendCachedOk : Bool
  fileExists : Bool
  httpOk : Bool
  uploadFileId : Option String

/-- How a run of a ready handler ended. -/
inductive ReadyOutcome where
  | malformed : ReadyOutcome
  | republished : ReadyOutcome
  | crashed : ReadyOutcome
  | deliveredCached : ReadyOutcome
  | downloadFailed : ReadyOutcome
  | noFileId : ReadyOutcome
  | deliveredFresh : ReadyOutcome
deriving DecidableEq

/-- Observable result of one ready-handler run: how it ended, the final
cache state, the envelopes it published (queue, envelope), the chat
messages it deleted, and whether it set the
`_cleaup_correlation_id_start_time` payload flag. -/
structure ReadyRun where
  outcome : ReadyOutcome
  cache : GatewayCache
  published : List (String × EventEnvelope)
  deletedMessages : List (Int × Int)
  cleanupFlagSet : Bool

/-- Model of `audio_ready_event_handler` (the redis-observable skeleton).
Steps, in source order: payload guard; cache GET on
`audio_content:{object_name}`; unconditional SET NX EX 500 of the
interest lock `ongoing_audio_content:{object_name}`; if the lock was not
acquired and no truthy cached id, sleep 2 s plus jitter and republish a
rebuilt envelope (same type, correlation id and payload, fresh timestamp
`tsNew`) onto `telegram_events`; otherwise read `start_time` (a missing
value crashes in `float(None)`); deliver from cache when possible,
falling back to the download path on a send failure; on a fresh delivery
SET the file id with EX 600, DEL the lock, and run the optimistic-reply
cleanup. -/
def audio_ready_event_handler (st : GatewayCache) (corr : String)
    (payload : List (String × Json)) (tsNew : String) (env : TgEnv) : ReadyRun :=
  let url := (findPair "presigned_url" payload).getD (.str "")
  let mid := (findPair "message_id" payload).getD (.str "")
  let cid := (findPair "chat_id" payload).getD (.str "")
  if !(truthyJ url && truthyJ mid && truthyJ cid) then
    { outcome := .malformed, cache := st, published := [],
      deletedMessages := [], cleanupFlagSet := false }
  else
    match url with
    | .str u =>
      let object_name := env.hashBaseUrl u
      let cacheKey := "audio_content:" ++ object_name
      let lockKey := "ongoing_audio_content:" ++ object_name
      let cached := st.strings cacheKey
      let acq := st.setNxEx lockKey "ongoing" 500
      if !acq.1 && !truthyOpt cached then
        { outcome := .republished, cache := acq.2,
          published := [("telegram_events",
            { type := "events.dl.audio.ready", correlation_id := corr,
              version := 1, timestamp := tsNew, payload := payload,
              is_rate_limited := false })],
          deletedMessages := [], cleanupFlagSet := false }
      else
        let st1 := acq.2
        match st1.hashes ("correlation_id:" ++ corr) "start_time" with
        | Option.none =>
          { outcome := .crashed, cache := st1, published := [],
            deletedMessages := [], cleanupFlagSet := false }
        | some _ =>
          if truthyOpt cached && env.sendCachedOk then
            let st2 := st1.del lockKey
            let cln := optimistic_reply_cleanup st2 corr
            { outcome := .deliveredCached, cache := cln.1, published := [],
              deletedMessages := cln.2, cleanupFlagSet := true }
          else
            if !env.fileExists && !env.httpOk then
              { outcome := .downloadFailed, cache := st1, published := [],
                deletedMessages := [], cleanupFlagSet := false }
            else
              match env.uploadFileId with
              | Option.none =>
                { outcome := .noFileId, cache := st1, published := [],
                  deletedMessages := [], cleanupFlagSet := false }
              | some fid =>
                let st2 := st1.setEx cacheKey fid 600
                let st3 := st2.del lockKey
                let cln := optimistic_reply_cleanup st3 corr
                { outcome := .deliveredFresh, cache := cln.1, published := [],
                  deletedMessages := cln.2, cleanupFlagSet := true }
    | _ =>
      { outcome := .crashed, cache := st, published := [],
        deletedMessages := [], cleanupFlagSet := false }

/-- Model of `video_ready_event_handler` (the redis-observable skeleton).
Steps, in source order: payload guard; read `start_time` (a missing value
crashes in `float(None)`); HGET of field `object_name` in the redis hash
`video_content`; if truthy, send with the cached id and return leaving
the cache untouched; otherwise download and upload, then HSET the file id
into the hash `video_content` with no TTL.  There is no interest lock, no
republish, and no optimistic-reply cleanup in this handler. -/
def video_ready_event_handler (st : GatewayCache) (corr : String)
    (payload : List (String × Json)) (env : TgEnv) : ReadyRun :=
  let url := (findPair "presigned_url" payload).getD (.str "")
  let mid := (findPair "message_id" payload).getD (.str "")
  let cid := (findPair "chat_id" payload).getD (.str "")
  if !(truthyJ url && truthyJ mid && truthyJ cid) then
    { outcome := .malformed, cache := st, published := [],
      deletedMessages := [], cleanupFlagSet := false }
  else
    match url with
    | .str u =>
      let object_name := env.hashBaseUrl u
      match st.hashes ("correlation_id:" ++ corr) "start_time" with
      | Option.none =>
        { outcome := .crashed, cache := st, published := [],
          deletedMessages := [], cleanupFlagSet := false }
      | some _ =>
        let cached := st.hashes "video_content" object_name
        if truthyOpt cached then
          { outcome := .deliveredCached, cache := st, published := [],
            deletedMessages := [], cleanupFlagSet := false }
        else
          if !env.fileExists && !env.httpOk then
            { outcome := .downloadFailed, cache := st, published := [],
              deletedMessages := [], cleanupFlagSet := false }
          else
            match env.uploadFileId with
            | Option.none =>
              { outcome := .noFileId, cache := st, published := [],
                deletedMessages := [], cleanupFlagSet := false }
            | some fid =>
              { outcome := .deliveredFresh,
                cache := st.hset "video_content" object_name fid,
                published := [], deletedMessages := [], cleanupFlagSet := false }
    | _ =>
      { outcome := .crashed, cache := st, published := [],
        deletedMessages := [], cleanupFlagSet := false }

/-!  ## Disk-cleanup counter (src/gateway/main.py, cleanup_counter_increment) -/

/-- A command published by the cleanup dispatcher. -/
structure CleanupCmd where
  queue : String
  type : String
  max_delete : Int
deriving DecidableEq

/-- Model of `downloads_cleanup_dispatcher`: publishes a
`commands.gateway.downloads-cleanup` envelope carrying `max_delete` onto
`gateway_events` (the fresh uuid and timestamp of the envelope are not
observable by the claim). -/
def downloads_cleanup_dispatcher (max_delete : Int) : CleanupCmd :=
  { queue := "gateway_events", type := "commands.gateway.downloads-cleanup",
    max_delete := max_delete }

/-- The state of the `cleanup_event_counter` key: its integer value (0
models the absent key) and its TTL. -/
structure CounterState where
  count : Nat
  ttl : Option Nat
deriving DecidableEq

/-- Model of the `cleanup_counter_increment` after-middleware: INCR the
counter, EXPIRE it to 86400 s, and when the new count reaches 100 delete
the key and publish the cleanup command with max_delete 100. -/
def cleanup_counter_increment (st : CounterState) : CounterState × List CleanupCmd :=
  let count := st.count + 1
  if count ≥ 100 then
    ({ count := 0, ttl := none }, [downloads_cleanup_dispatcher 100])
  else
    ({ count := count, ttl := some 86400 }, [])

/-- `n` events processed through the after-middleware starting from the
absent key, accumulating every published cleanup command. -/
def cleanupRunN : Nat → CounterState × List CleanupCmd
  | 0 => ({ count := 0, ttl := none }, [])
  | n + 1 =>
    let r := cleanupRunN n
    let s := cleanup_counter_increment r.1
    (s.1, r.2 ++ s.2)

/-!  ## Derived views of the router used by the statements -/

/-- The options `dispatch` resolves for an envelope (the registered ones,
or the default `RouteOption()` when absent). -/
def EventRouter.route_option_for (r : EventRouter) (e : EventEnvelope) : RouteOption :=
  (alistFind (e.type, e.version) r.route_options).getD RouteOption.mk0

/-- The effective before list: globally registered before middlewares
followed by the route's `middleware_before`, de-duplicated keeping the
first occurrence. -/
def EventRouter.effective_before (r : EventRouter) (e : EventEnvelope) : List String :=
  dedupFirst (r.middlewares_before ++ (r.route_option_for e).middleware_before)

/-- The effective after list, built like the before list. -/
def EventRouter.effective_after (r : EventRouter) (e : EventEnvelope) : List String :=
  dedupFirst (r.middlewares_after ++ (r.route_option_for e).middleware_after)

/-!  ## Concrete fixtures used by the witnesses and counterexamples -/

/-- A concrete well-formed envelope. -/
def envSample : EventEnvelope :=
  { type := "events.telegram.raw", correlation_id := "abc", version := 1,
    timestamp := "2026-01-01T00:00:00+00:00",
    payload := [("text", .str ".vdl https://h/p")], is_rate_limited := false }

/-- A middleware that accepts and returns True. -/
def mwTrue : PyCallable :=
  { params := ["envelope"], run := fun e => (.bool true, e) }

/-- A handler with the required `envelope` parameter. -/
def okHandler : PyCallable :=
  { params := ["envelope", "ctx"], run := fun e => (.str "ok", e) }

/-- A handler without an `envelope` parameter. -/
def badHandler : PyCallable :=
  { params := ["self"], run := fun e => (PyValue.none, e) }

/-- A router with one global before middleware, one global after
middleware, one on-demand middleware enabled by the route options, and a
route whose options repeat the global before name (exercising the
first-occurrence de-duplication). -/
def demoRouter : EventRouter :=
  { routes := [(("t", 1), okHandler)]
    route_options := [(("t", 1),
      { middleware_before := ["g1", "b1"], middleware_after := [],
        retry_attempt := 0 })]
    middlewares := [("g1", mwTrue), ("b1", mwTrue), ("a1", mwTrue)]
    middlewares_before := ["g1"]
    middlewares_after := ["a1"] }

/-- An envelope routed to `("t", 1)`. -/
def demoEnvelope : EventEnvelope :=
  { type := "t", correlation_id := "c", version := 1, timestamp := "",
    payload := [], is_rate_limited := false }

/-- The trace the demo dispatch produces. -/
def demoTrace : List TraceEv :=
  [.mw "g1", .mw "b1", .handler, .mw "a1"]

/-- The result the demo dispatch returns. -/
def demoResult : DispatchResult :=
  { handler_result := .str "ok", correlation_id := "c",
    middlewares_before_result := [("g1", .bool true), ("b1", .bool true)],
    middlewares_after_result := [("a1", .bool true)] }

/-- A router whose only route was registered with a handler lacking the
`envelope` parameter; `route` accepts it without complaint. -/
def badRouter : EventRouter :=
  EventRouter.empty.route "t" 1 Option.none badHandler

/-- A cache state where the grant key for chat 7 is present but holds the
empty string. -/
def gracedEmptyCache : String → Option String :=
  fun k => if k = "graced_chat:7" then some "" else none

/-- Payload of a well-formed ready event. -/
def readyPayload : List (String × Json) :=
  [("presigned_url", .str "https://minio.local/video/abc?X-Sig=1"),
   ("message_id", .int 5), ("chat_id", .int 9)]

/-- Oracles for a ready-handler run where every external call succeeds. -/
def readyEnv : TgEnv :=
  { hashBaseUrl := fun _ => "h", sendCachedOk := true, fileExists := false,
    httpOk := true, uploadFileId := some "fid" }

/-- Gateway cache where the video interest lock for object `h` is held,
no content id is cached anywhere, and `start_time` is present. -/
def videoState : GatewayCache :=
  { strings := fun k => if k = "ongoing_video_content:h" then some "ongoing" else none
    strTtls := fun _ => none
    hashes := fun k f =>
      if k = "correlation_id:c" ∧ f = "start_time" then some "100.0" else none }

/-- Gateway cache where the audio interest lock for object `h` is held
and no content id is cached. -/
def audioLockedState : GatewayCache :=
  { strings := fun k => if k = "ongoing_audio_content:h" then some "ongoing" else none
    strTtls := fun _ => none
    hashes := fun _ _ => none }

/-- Gateway cache holding a complete optimistic-reply record for
correlation id `c`. -/
def optimisticState : GatewayCache :=
  { strings := fun _ => none
    strTtls := fun _ => none
    hashes := fun k f =>
      if k = "correlation_id:c:optimistic_reply" then
        if f = "message_id" then some "5"
        else if f = "chat_id" then some "9" else none
      else none }

/-- Gateway cache with no keys at all. -/
def emptyGatewayCache : GatewayCache :=
  { strings := fun _ => none, strTtls := fun _ => none, hashes := fun _ _ => none }

/-!  ## Helper lemmas -/

theorem decChars_of_lt (n : Nat) (h : n < 10) : decChars n = [Nat.digitChar n] := by
  conv_lhs => rw [decChars]
  simp [h]

theorem decChars_of_ge (n : Nat) (h : ¬ n < 10) :
    decChars n = decChars (n / 10) ++ [Nat.digitChar (n % 10)] := by
  conv_lhs => rw [decChars]
  simp [h]

theorem decChars_ne_nil (n : Nat) : decChars n ≠ [] := by
  by_cases h : n < 10
  · rw [decChars_of_lt n h]; simp
  · rw [decChars_of_ge n h]; simp

theorem digitChar_inj_lt (a b : Nat) (ha : a < 10) (hb : b < 10)
    (h : Nat.digitChar a = Nat.digitChar b) : a = b := by
  have key : ∀ x y : Fin 10, Nat.digitChar x.val = Nat.digitChar y.val → x = y := by decide
  exact congrArg Fin.val (key ⟨a, ha⟩ ⟨b, hb⟩ h)

theorem decChars_inj (m : Nat) : ∀ n : Nat, decChars m = decChars n → m = n := by
  induction m using Nat.strong_induction_on with
  | _ m ih =>
    intro n h
    by_cases hm : m < 10 <;> by_cases hn : n < 10
    · rw [decChars_of_lt m hm, decChars_of_lt n hn] at h
      simp only [List.cons.injEq, and_true] at h
      exact digitChar_inj_lt m n hm hn h
    · rw [decChars_of_lt m hm, decChars_of_ge n hn] at h
      have hlen := congrArg List.length h
      simp [List.length_append] at hlen
      exact absurd hlen (decChars_ne_nil (n / 10))
    · rw [decChars_of_ge m hm, decChars_of_lt n hn] at h
      have hlen := congrArg List.length h
      simp [List.length_append] at hlen
      exact absurd hlen (decChars_ne_nil (m / 10))
    · rw [decChars_of_ge m hm, decChars_of_ge n hn] at h
      obtain ⟨h1, h2⟩ := List.append_inj' h rfl
      have hdiv : m / 10 = n / 10 :=
        ih (m / 10) (Nat.div_lt_self (by omega) (by omega)) (n / 10) h1
      simp only [List.cons.injEq, and_true] at h2
      have hmod : m % 10 = n % 10 :=
        digitChar_inj_lt _ _ (Nat.mod_lt _ (by omega)) (Nat.mod_lt _ (by omega)) h2
      have d1 := Nat.div_add_mod m 10
      have d2 := Nat.div_add_mod n 10
      omega

theorem toDigitsCore_eq (fuel : Nat) : ∀ (n : Nat) (ds : List Char), n < fuel →
    Nat.toDigitsCore 10 fuel n ds = decChars n ++ ds := by
  induction fuel with
  | zero => omega
  | succ fuel ih =>
    intro n ds hn
    simp only [Nat.toDigitsCore]
    by_cases h0 : n / 10 = 0
    · have hlt : n < 10 := by
        by_contra hc
        push_neg at hc
        have h1 : 1 ≤ n / 10 := (Nat.one_le_div_iff (by omega)).mpr (by omega)
        omega
      simp [h0, decChars_of_lt n hlt, Nat.mod_eq_of_lt hlt]
    · have hge : ¬ n < 10 := fun hc => h0 (Nat.div_eq_of_lt hc)
      have hlt : n / 10 < fuel := by
        have hd : n / 10 < n := Nat.div_lt_self (by omega) (by omega)
        omega
      simp only [h0, if_false]
      rw [ih (n / 10) (Nat.digitChar (n % 10) :: ds) hlt, decChars_of_ge n hge]
      simp

theorem natRepr_inj (m n : Nat) (h : Nat.repr m = Nat.repr n) : m = n := by
  have unfoldRepr : ∀ k : Nat, Nat.repr k = (decChars k).asString := by
    intro k
    show (Nat.toDigits 10 k).asString = _
    rw [Nat.toDigits, toDigitsCore_eq (k + 1) k [] (by omega)]
    simp
  rw [unfoldRepr m, unfoldRepr n] at h
  have hdata : decChars m = decChars n := congrArg String.data h
  exact decChars_inj m n hdata

theorem runMwChain_ok (mws : List (String × PyCallable)) (phase msg : String) :
    ∀ (names : List String) (e : EventEnvelope) (vs : List (String × PyValue))
      (e' : EventEnvelope),
      (runMwChain mws phase msg names e).2 = .ok (vs, e') →
      (runMwChain mws phase msg names e).1 = names.map TraceEv.mw
        ∧ vs.map Prod.fst = names := by
  intro names
  induction names with
  | nil =>
    intro e vs e' h
    simp only [runMwChain, Except.ok.injEq, Prod.mk.injEq] at h
    simp [runMwChain, ← h.1]
  | cons n rest ih =>
    intro e vs e' h
    rw [runMwChain] at h ⊢
    cases hfind : alistFind n mws with
    | none =>
      rw [hfind] at h
      simp at h
    | some m =>
      rw [hfind] at h
      dsimp only at h ⊢
      by_cases htru : (m.run e).1.truthy = true
      · rw [if_pos htru] at h ⊢
        dsimp only at h ⊢
        cases hrec : (runMwChain mws phase msg rest (m.run e).2).2 with
        | error err =>
          rw [hrec] at h
          simp at h
        | ok pr =>
          obtain ⟨vs2, e2⟩ := pr
          rw [hrec] at h
          simp only [Except.ok.injEq, Prod.mk.injEq] at h
          obtain ⟨hvs, _⟩ := h
          obtain ⟨htr2, hvs2⟩ := ih (m.run e).2 vs2 e2 hrec
          subst hvs
          simp [htr2, hvs2]
      · rw [if_neg htru] at h
        simp at h

theorem runMwChain_err_not_sig (mws : List (String × PyCallable)) (phase msg : String) :
    ∀ (names : List String) (e : EventEnvelope) (err : DispatchErr),
      (runMwChain mws phase msg names e).2 = .error err →
      ∀ t : String, err ≠ .handlerSignature t := by
  intro names
  induction names with
  | nil => intro e err h; simp [runMwChain] at h
  | cons n rest ih =>
    intro e err h t
    rw [runMwChain] at h
    cases hfind : alistFind n mws with
    | none =>
      rw [hfind] at h
      simp only [Except.error.injEq] at h
      subst h
      simp
    | some m =>
      rw [hfind] at h
      dsimp only at h
      by_cases htru : (m.run e).1.truthy = true
      · rw [if_pos htru] at h
        dsimp only at h
        cases hrec : (runMwChain mws phase msg rest (m.run e).2).2 with
        | error err2 =>
          rw [hrec] at h
          simp only [Except.error.injEq] at h
          subst h
          exact ih (m.run e).2 err2 hrec t
        | ok pr =>
          rw [hrec] at h
          simp at h
      · rw [if_neg htru] at h
        simp only [Except.error.injEq] at h
        subst h
        simp

/-!  ## Claim theorems -/

/-- C1: for every registered route and global middleware configuration, a
successful dispatch executes exactly the effective before list — the
global before list followed by the route options' middleware_before,
de-duplicated keeping the first occurrence — before the handler, and the
effective after list (built the same way) after the handler; the returned
per-middleware result maps list exactly those names in order. -/
theorem dispatch_middleware_ordering (r : EventRouter) (corrSlot : String)
    (e : EventEnvelope) (tr : List TraceEv) (res : DispatchResult)
    (h : r.dispatch corrSlot e = (tr, .ok res)) :
    tr = (r.effective_before e).map TraceEv.mw ++ [TraceEv.handler]
          ++ (r.effective_after e).map TraceEv.mw
    ∧ res.middlewares_before_result.map Prod.fst = r.effective_before e
    ∧ res.middlewares_after_result.map Prod.fst = r.effective_after e := by
  unfold EventRouter.dispatch at h
  unfold EventRouter.effective_before EventRouter.effective_after
    EventRouter.route_option_for
  cases hfind : alistFind (e.type, e.version) r.routes with
  | none =>
    rw [hfind] at h
    simp at h
  | some handler =>
    rw [hfind] at h
    dsimp only at h
    by_cases hsig : has_params handler ["envelope"] = true
    · rw [if_neg (not_not_intro hsig)] at h
      cases hB : (runMwChain r.middlewares "before" "No before middleware registered"
          (dedupFirst (r.middlewares_before ++
            ((alistFind (e.type, e.version) r.route_options).getD
              RouteOption.mk0).middleware_before)) e).2 with
      | error err =>
        rw [hB] at h
        simp at h
      | ok prB =>
        obtain ⟨bvals, e1⟩ := prB
        rw [hB] at h
        dsimp only at h
        cases hA : (runMwChain r.middlewares "after" "No after middleware registered"
            (dedupFirst (r.middlewares_after ++
              ((alistFind (e.type, e.version) r.route_options).getD
                RouteOption.mk0).middleware_after)) (handler.run e1).2).2 with
        | error err =>
          rw [hA] at h
          simp at h
        | ok prA =>
          obtain ⟨avals, e2⟩ := prA
          rw [hA] at h
          simp only [Prod.mk.injEq, Except.ok.injEq] at h
          obtain ⟨htr, hres⟩ := h
          obtain ⟨htrB, hvsB⟩ := runMwChain_ok _ _ _ _ _ _ _ hB
          obtain ⟨htrA, hvsA⟩ := runMwChain_ok _ _ _ _ _ _ _ hA
          subst htr
          subst hres
          simp [htrB, htrA, hvsB, hvsA]
    · rw [if_pos hsig] at h
      simp at h

/-- C1 witness: a concrete router with global before list `[g1]`, route
options before list `[g1, b1]` (so the effective list is `[g1, b1]`) and
global after list `[a1]`; dispatch runs g1, b1, the handler, then a1. -/
theorem dispatch_middleware_ordering_witness :
    demoRouter.dispatch "c" demoEnvelope = (demoTrace, .ok demoResult)
    ∧ demoTrace = (demoRouter.effective_before demoEnvelope).map TraceEv.mw
        ++ [TraceEv.handler]
        ++ (demoRouter.effective_after demoEnvelope).map TraceEv.mw :=
  ⟨rfl, (dispatch_middleware_ordering demoRouter "c" demoEnvelope demoTrace
    demoResult rfl).1⟩

/-- C8 counterexample: `route` accepts a handler without an `envelope`
parameter (registration does not fail), and dispatching to that
successfully registered route raises HandlerSignatureError — contradicting
the claim that the failure is at registration time and that dispatch never
raises it for a registered route. -/
theorem handler_signature_dispatch_counterexample :
    badRouter.get_route demoEnvelope = some badHandler
    ∧ (badRouter.dispatch "c" demoEnvelope).2
        = .error (.handlerSignature "t") :=
  ⟨rfl, rfl⟩

/-- C8 amended: registration stores any handler without validating its
signature, and it is dispatch that checks for the `envelope` parameter:
for a route found for the envelope, dispatch raises HandlerSignatureError
exactly when the registered handler lacks a parameter named `envelope`. -/
theorem handler_signature_checked_at_dispatch (r : EventRouter)
    (corrSlot t : String) (v : Int) (opts : Option RouteOption)
    (f : PyCallable) (e : EventEnvelope) (hnd : PyCallable)
    (hfound : alistFind (e.type, e.version) r.routes = some hnd) :
    alistFind (t, v) (r.route t v opts f).routes = some f
    ∧ ((r.dispatch corrSlot e).2 = .error (.handlerSignature e.type)
        ↔ has_params hnd ["envelope"] = false) := by
  constructor
  · simp [EventRouter.route, alistFind]
  · unfold EventRouter.dispatch
    rw [hfound]
    dsimp only
    by_cases hsig : has_params hnd ["envelope"] = true
    · rw [if_neg (not_not_intro hsig)]
      rw [hsig]
      simp only [Bool.true_eq_false, iff_false]
      intro h
      cases hB : (runMwChain r.middlewares "before" "No before middleware registered"
          (dedupFirst (r.middlewares_before ++
            ((alistFind (e.type, e.version) r.route_options).getD
              RouteOption.mk0).middleware_before)) e).2 with
      | error err =>
        rw [hB] at h
        simp only [Except.error.injEq] at h
        exact runMwChain_err_not_sig _ _ _ _ _ _ hB e.type h
      | ok prB =>
        obtain ⟨bvals, e1⟩ := prB
        rw [hB] at h
        dsimp only at h
        cases hA : (runMwChain r.middlewares "after" "No after middleware registered"
            (dedupFirst (r.middlewares_after ++
              ((alistFind (e.type, e.version) r.route_options).getD
                RouteOption.mk0).middleware_after)) (hnd.run e1).2).2 with
        | error err =>
          rw [hA] at h
          simp only [Except.error.injEq] at h
          exact runMwChain_err_not_sig _ _ _ _ _ _ hA e.type h
        | ok prA =>
          obtain ⟨avals, e2⟩ := prA
          rw [hA] at h
          simp at h
    · rw [if_pos hsig]
      simp only [Bool.not_eq_true] at hsig
      simp [hsig]

/-- C8 amended witness: applied to the concrete bad router; the bad
handler was registered and dispatch reports the signature error. -/
theorem handler_signature_checked_at_dispatch_witness :
    alistFind ("t", 1) (EventRouter.empty.route "t" 1 Option.none badHandler).routes
        = some badHandler
    ∧ ((badRouter.dispatch "c" demoEnvelope).2
          = .error (.handlerSignature demoEnvelope.type)
        ↔ has_params badHandler ["envelope"] = false) :=
  handler_signature_checked_at_dispatch badRouter "c" "t" 1 Option.none
    badHandler demoEnvelope badHandler rfl

/-- C2: for every envelope with non-empty type and correlation_id (and,
as for every envelope in this embedding, a well-typed payload mapping),
decoding the wire encoding yields the original envelope:
`from_dict` applied to the JSON-decoded output of `to_json` is the
identity. -/
theorem envelope_roundtrip (e : EventEnvelope)
    (ht : e.type ≠ "") (hc : e.correlation_id ≠ "") :
    EventEnvelope.from_dict (EventEnvelope.asdict e) = .ok (some e) := rfl

/-- C2 witness: the round trip evaluated at a concrete envelope. -/
theorem envelope_roundtrip_witness :
    envSample.type ≠ "" ∧ envSample.correlation_id ≠ ""
    ∧ EventEnvelope.from_dict (EventEnvelope.asdict envSample) = .ok (some envSample) :=
  ⟨by decide, by decide, envelope_roundtrip envSample (by decide) (by decide)⟩

/-- C3 counterexample: the claim requires parsing to fail with a
MalformedEnvelope error when `type` or `correlation_id` is empty, but
`from_dict` applied to an object carrying empty `type` and
`correlation_id` succeeds and returns an envelope with empty fields (no
MalformedEnvelope error exists anywhere in the code). -/
theorem from_dict_accepts_empty_counterexample :
    EventEnvelope.from_dict (.obj [("type", .str ""), ("correlation_id", .str "")])
      = .ok (some { type := "", correlation_id := "", version := 1, timestamp := "",
                    payload := [], is_rate_limited := false }) := rfl

/-- C3 amended: parsing tolerates a missing `version` (default 1) and a
missing `is_rate_limited` (default false), but performs no validation:
a missing or empty `type` or `correlation_id` is defaulted to the empty
string and parsing succeeds, and a non-object top level raises
AttributeError — there is no MalformedEnvelope error in the code. -/
theorem from_dict_defaults_no_validation (entries : List (String × Json)) (t c : String)
    (h1 : findPair "type" entries = some (.str t))
    (h2 : findPair "correlation_id" entries = some (.str c))
    (hv : findPair "version" entries = none)
    (hr : findPair "is_rate_limited" entries = none)
    (hts : findPair "timestamp" entries = none)
    (hp : findPair "payload" entries = none) :
    EventEnvelope.from_dict (.obj entries)
      = .ok (some { type := t, correlation_id := c, version := 1, timestamp := "",
                    payload := [], is_rate_limited := false })
    ∧ (∀ j : Json, (∀ es : List (String × Json), j ≠ .obj es) →
        EventEnvelope.from_dict j = .error .attributeError) := by
  constructor
  · have e1 : dGet (.obj entries) "type" (.str "") = .ok (.str t) := by
      simp [dGet, h1]
    have e2 : dGet (.obj entries) "version" (.int 1) = .ok (.int 1) := by
      simp [dGet, hv]
    have e3 : dGet (.obj entries) "correlation_id" (.str "") = .ok (.str c) := by
      simp [dGet, h2]
    have e4 : dGet (.obj entries) "timestamp" (.str "") = .ok (.str "") := by
      simp [dGet, hts]
    have e5 : dGet (.obj entries) "payload" (.obj []) = .ok (.obj []) := by
      simp [dGet, hp]
    have e6 : dGet (.obj entries) "is_rate_limited" (.bool false) = .ok (.bool false) := by
      simp [dGet, hr]
    rw [EventEnvelope.from_dict]
    rw [e1, e2, e3, e4, e5, e6]
    rfl
  · intro j hj
    cases j with
    | obj es => exact absurd rfl (hj es)
    | null => rfl
    | bool b => rfl
    | int n => rfl
    | str s => rfl
    | arr l => rfl

/-- C3 amended witness: a concrete object with only type and
correlation_id parses with the defaults, and a concrete JSON array fails
with AttributeError. -/
theorem from_dict_defaults_no_validation_witness :
    EventEnvelope.from_dict (.obj [("type", .str "t"), ("correlation_id", .str "c")])
      = .ok (some { type := "t", correlation_id := "c", version := 1, timestamp := "",
                    payload := [], is_rate_limited := false })
    ∧ EventEnvelope.from_dict (.arr []) = .error .attributeError :=
  ⟨(from_dict_defaults_no_validation
      [("type", .str "t"), ("correlation_id", .str "c")] "t" "c"
      rfl rfl rfl rfl rfl rfl).1,
   (from_dict_defaults_no_validation
      [("type", .str "t"), ("correlation_id", .str "c")] "t" "c"
      rfl rfl rfl rfl rfl rfl).2 (.arr []) (fun _ h => Json.noConfusion h)⟩

/-- C4: the `correlation_id` and `timestamp` defaults of
`EventEnvelope.create` are evaluated once, at function definition time;
every pair of calls that omits them yields the same correlation id (the
definition-time uuid) and the same timestamp (the definition-time
clock reading), contradicting the documented fresh-uuid-and-now-per-call
behaviour. -/
theorem create_defaults_fixed (defs : CreateDefaults) (t1 t2 : String)
    (p1 p2 : List (String × Json)) :
    (EventEnvelope.create defs t1 p1 1 none false none).correlation_id
      = (EventEnvelope.create defs t2 p2 1 none false none).correlation_id
    ∧ (EventEnvelope.create defs t1 p1 1 none false none).timestamp
      = (EventEnvelope.create defs t2 p2 1 none false none).timestamp
    ∧ (EventEnvelope.create defs t1 p1 1 none false none).correlation_id = defs.uuid0
    ∧ (EventEnvelope.create defs t1 p1 1 none false none).timestamp = defs.ts0 :=
  ⟨rfl, rfl, rfl, rfl⟩

/-- C7: starting from the absent counter, each of the first 99 events
publishes no cleanup command and leaves the counter at its event count;
the 100th event publishes exactly one
`commands.gateway.downloads-cleanup` with max_delete 100 onto
gateway_events and resets the counter to zero. -/
theorem cleanup_trigger (n : Nat) (hn : n ≤ 100) :
    (cleanupRunN n).2 = (if n = 100 then [downloads_cleanup_dispatcher 100] else [])
    ∧ (cleanupRunN n).1.count = (if n = 100 then 0 else n) := by
  induction n with
  | zero => simp [cleanupRunN]
  | succ k ih =>
    have hk : k ≤ 100 := by omega
    have hk99 : k ≠ 100 := by omega
    obtain ⟨ih1, ih2⟩ := ih hk
    rw [if_neg hk99] at ih1 ih2
    by_cases h100 : k + 1 = 100
    · have hge : k + 1 ≥ 100 := by omega
      simp [cleanupRunN, cleanup_counter_increment, ih1, ih2, h100, hge]
    · have hlt : ¬ (k + 1 ≥ 100) := by omega
      simp [cleanupRunN, cleanup_counter_increment, ih1, ih2, h100, hlt]

/-- C7 witness: evaluated at 100 events (one command, counter reset) and
at 99 events (no command, counter 99). -/
theorem cleanup_trigger_witness :
    ((cleanupRunN 100).2 = [downloads_cleanup_dispatcher 100]
      ∧ (cleanupRunN 100).1.count = 0)
    ∧ ((cleanupRunN 99).2 = [] ∧ (cleanupRunN 99).1.count = 99) := by
  constructor
  · have h := cleanup_trigger 100 (by decide)
    simpa using h
  · have h := cleanup_trigger 99 (by decide)
    simpa using h

theorem optimistic_frame (st : GatewayCache) (corr : String) :
    (optimistic_reply_cleanup st corr).1.strings = st.strings
    ∧ (optimistic_reply_cleanup st corr).1.strTtls = st.strTtls := by
  unfold optimistic_reply_cleanup
  cases ha : safe_int (st.hashes ("correlation_id:" ++ (corr ++ ":optimistic_reply")) "message_id") with
  | none => simp [ha]
  | some mi =>
    cases hb : safe_int (st.hashes ("correlation_id:" ++ (corr ++ ":optimistic_reply")) "chat_id") with
    | none => simp [ha, hb]
    | some ci => simp [ha, hb, GatewayCache.hdel2]

/-- C9: the optimistic-reply cleanup reads the hash at
`correlation_id:{id}:optimistic_reply`; when both the message_id and
chat_id fields are present and numeric it deletes that chat message and
clears exactly those fields, and when either field is missing or
non-numeric it is a no-op — no deletion and the cache unchanged; in every
case the string keys, TTLs and all other hashes are untouched. -/
theorem optimistic_reply_cleanup_spec (st : GatewayCache) (corr : String) :
    (∀ mi ci : Int,
      safe_int (st.hashes ("correlation_id:" ++ (corr ++ ":optimistic_reply")) "message_id") = some mi →
      safe_int (st.hashes ("correlation_id:" ++ (corr ++ ":optimistic_reply")) "chat_id") = some ci →
      optimistic_reply_cleanup st corr =
        (st.hdel2 ("correlation_id:" ++ (corr ++ ":optimistic_reply")) "message_id" "chat_id",
         [(ci, mi)]))
    ∧ ((safe_int (st.hashes ("correlation_id:" ++ (corr ++ ":optimistic_reply")) "message_id") = none
        ∨ safe_int (st.hashes ("correlation_id:" ++ (corr ++ ":optimistic_reply")) "chat_id") = none) →
      optimistic_reply_cleanup st corr = (st, []))
    ∧ (optimistic_reply_cleanup st corr).1.strings = st.strings
    ∧ (optimistic_reply_cleanup st corr).1.strTtls = st.strTtls
    ∧ (∀ k f : String, k ≠ "correlation_id:" ++ (corr ++ ":optimistic_reply") →
        (optimistic_reply_cleanup st corr).1.hashes k f = st.hashes k f) := by
  refine ⟨?_, ?_, (optimistic_frame st corr).1, (optimistic_frame st corr).2, ?_⟩
  · intro mi ci hm hc
    simp [optimistic_reply_cleanup, hm, hc]
  · intro hor
    cases ha : safe_int (st.hashes ("correlation_id:" ++ (corr ++ ":optimistic_reply")) "message_id") with
    | none => simp [optimistic_reply_cleanup, ha]
    | some mi =>
      cases hb : safe_int (st.hashes ("correlation_id:" ++ (corr ++ ":optimistic_reply")) "chat_id") with
      | none => simp [optimistic_reply_cleanup, ha, hb]
      | some ci =>
        rw [ha] at hor
        rw [hb] at hor
        simp at hor
  · intro k f hk
    cases ha : safe_int (st.hashes ("correlation_id:" ++ (corr ++ ":optimistic_reply")) "message_id") with
    | none => simp [optimistic_reply_cleanup, ha]
    | some mi =>
      cases hb : safe_int (st.hashes ("correlation_id:" ++ (corr ++ ":optimistic_reply")) "chat_id") with
      | none => simp [optimistic_reply_cleanup, ha, hb]
      | some ci => simp [optimistic_reply_cleanup, ha, hb, GatewayCache.hdel2, hk]

/-- C9 witness: a cache holding message_id 5 and chat_id 9 gets the
message deleted and the fields cleared; the empty cache is a no-op. -/
theorem optimistic_reply_cleanup_spec_witness :
    optimistic_reply_cleanup optimisticState "c"
      = (optimisticState.hdel2 ("correlation_id:" ++ ("c" ++ ":optimistic_reply"))
          "message_id" "chat_id", [(9, 5)])
    ∧ optimistic_reply_cleanup emptyGatewayCache "c" = (emptyGatewayCache, []) :=
  ⟨(optimistic_reply_cleanup_spec optimisticState "c").1 5 9 (by decide) (by decide),
   (optimistic_reply_cleanup_spec emptyGatewayCache "c").2.1 (Or.inl rfl)⟩

/-- C10 counterexample: with admin 99, parsable ids user "5" and chat
"7", and a cache where the key graced_chat:7 is present but holds the
empty string, is_allowed returns False — so "True iff admin or the key is
present" fails (Python truthiness of the fetched value, not presence,
is what the code tests). -/
theorem authenticator_presence_counterexample :
    gracedEmptyCache "graced_chat:7" = some ""
    ∧ pyParseInt "5" = some 5 ∧ pyParseInt "7" = some 7
    ∧ (99 : Int) ≠ 5
    ∧ Authenticator.is_allowed 99 "5" "7" gracedEmptyCache = false :=
  ⟨rfl, by decide, by decide, by decide, by decide⟩

/-- C10 amended: when user_id or chat_id does not parse as an int,
is_allowed returns False whatever the admin id and cache state are; for
parsable ids it returns True iff the user is the configured admin or the
key graced_chat:{chat_id} is present with a non-empty value. -/
theorem authenticator_is_allowed_spec (admin : Int) (user chat : String)
    (redis : String → Option String) :
    ((pyParseInt user = none ∨ pyParseInt chat = none) →
      Authenticator.is_allowed admin user chat redis = false)
    ∧ (∀ ui ci : Int, pyParseInt user = some ui → pyParseInt chat = some ci →
        (Authenticator.is_allowed admin user chat redis = true ↔
          (admin = ui ∨ truthyOpt (redis ("graced_chat:" ++ Int.repr ci)) = true))) := by
  constructor
  · intro hor
    cases hu : pyParseInt user with
    | none => simp [Authenticator.is_allowed, hu]
    | some ui =>
      cases hc : pyParseInt chat with
      | none => simp [Authenticator.is_allowed, hu, hc]
      | some ci =>
        rw [hu] at hor
        rw [hc] at hor
        simp at hor
  · intro ui ci hu hc
    simp [Authenticator.is_allowed, hu, hc, Authenticator.is_admin,
      Bool.or_eq_true, decide_eq_true_iff]

/-- C10 amended witness: a non-parsable user id is denied regardless of
state, and a parsable admin id is allowed. -/
theorem authenticator_is_allowed_spec_witness :
    Authenticator.is_allowed 99 "x" "7" gracedEmptyCache = false
    ∧ (Authenticator.is_allowed 7 "7" "7" gracedEmptyCache = true ↔
        ((7 : Int) = 7 ∨ truthyOpt (gracedEmptyCache ("graced_chat:" ++ Int.repr 7)) = true)) :=
  ⟨(authenticator_is_allowed_spec 99 "x" "7" gracedEmptyCache).1 (Or.inl (by decide)),
   (authenticator_is_allowed_spec 7 "7" "7" gracedEmptyCache).2 7 7 (by decide) (by decide)⟩

theorem incrementN_counters_self (lim : FixedWindowRateLimiter) (now : Nat) (u : String) :
    ∀ k : Nat, (incrementN lim emptyRateCache now u k).counters (lim.redis_key now u) = k := by
  intro k
  induction k with
  | zero => rfl
  | succ k ih => simp [incrementN, FixedWindowRateLimiter.increment, ih]

theorem incrementN_counters_other (lim : FixedWindowRateLimiter) (now : Nat)
    (u : String) (k' : String) (hk : k' ≠ lim.redis_key now u) :
    ∀ k : Nat, (incrementN lim emptyRateCache now u k).counters k' = 0 := by
  intro k
  induction k with
  | zero => rfl
  | succ k ih => simp [incrementN, FixedWindowRateLimiter.increment, hk, ih]

theorem redis_key_window_ne (u : String) (now : Nat) :
    defaultLimiter.redis_key (now + 60) u ≠ defaultLimiter.redis_key now u := by
  intro h
  unfold FixedWindowRateLimiter.redis_key at h
  have hdata := congrArg String.data h
  simp only [String.data_append] at hdata
  have h1 := List.append_cancel_left hdata
  have h2 := List.append_cancel_left h1
  have h3 := List.append_cancel_left h2
  have h4 : Nat.repr ((now + 60) / defaultLimiter.window * defaultLimiter.window)
      = Nat.repr (now / defaultLimiter.window * defaultLimiter.window) :=
    congrArg String.mk h3
  have h5 := natRepr_inj _ _ h4
  have h6 : (now + 60) / 60 = now / 60 + 1 := Nat.add_div_right now (by omega)
  have h7 : defaultLimiter.window = 60 := rfl
  rw [h7] at h5
  omega

/-- C5: for the fixed-window limiter with window 60 and max_requests 5:
is_allowed is true iff the counter under the window key is below 5 (and,
being a pure read of the state, mutates nothing); increment returns the
incremented count, stores it under the window key, attaches a TTL of one
window exactly when the post-increment value is 1, and touches no other
key; starting from an empty state the first five increments each observe
is_allowed true, the sixth observes false, and one window later
is_allowed is true again. -/
theorem rate_limiter_fixed_window (st : RateCache) (now : Nat) (u : String) :
    (defaultLimiter.is_allowed st now u = true ↔
      st.counters (defaultLimiter.redis_key now u) < 5)
    ∧ (defaultLimiter.increment st now u).1
        = st.counters (defaultLimiter.redis_key now u) + 1
    ∧ (defaultLimiter.increment st now u).2.counters (defaultLimiter.redis_key now u)
        = st.counters (defaultLimiter.redis_key now u) + 1
    ∧ (defaultLimiter.increment st now u).2.ttls (defaultLimiter.redis_key now u)
        = (if st.counters (defaultLimiter.redis_key now u) + 1 = 1 then some 60
           else st.ttls (defaultLimiter.redis_key now u))
    ∧ (∀ k' : String, k' ≠ defaultLimiter.redis_key now u →
        (defaultLimiter.increment st now u).2.counters k' = st.counters k'
        ∧ (defaultLimiter.increment st now u).2.ttls k' = st.ttls k')
    ∧ (∀ k : Nat, k < 5 →
        defaultLimiter.is_allowed (incrementN defaultLimiter emptyRateCache now u k) now u
          = true)
    ∧ defaultLimiter.is_allowed (incrementN defaultLimiter emptyRateCache now u 5) now u
        = false
    ∧ (∀ k : Nat,
        defaultLimiter.is_allowed (incrementN defaultLimiter emptyRateCache now u k)
          (now + 60) u = true) := by
  refine ⟨?_, rfl, ?_, ?_, ?_, ?_, ?_, ?_⟩
  · simp [FixedWindowRateLimiter.is_allowed, defaultLimiter]
  · simp [FixedWindowRateLimiter.increment]
  · by_cases hc : st.counters (defaultLimiter.redis_key now u) + 1 = 1
    · simp only [FixedWindowRateLimiter.increment, hc, defaultLimiter]
      split <;> simp
    · simp [FixedWindowRateLimiter.increment, hc]
  · intro k' hk'
    constructor
    · simp [FixedWindowRateLimiter.increment, hk']
    · simp only [FixedWindowRateLimiter.increment]
      split <;> simp [hk']
  · intro k hk
    have hself := incrementN_counters_self defaultLimiter now u k
    simp only [FixedWindowRateLimiter.is_allowed, decide_eq_true_eq]
    rw [hself]
    exact hk
  · have hself := incrementN_counters_self defaultLimiter now u 5
    simp only [FixedWindowRateLimiter.is_allowed]
    rw [hself]
    rfl
  · intro k
    have hne := redis_key_window_ne u now
    have hother := incrementN_counters_other defaultLimiter now u
      (defaultLimiter.redis_key (now + 60) u) hne k
    simp only [FixedWindowRateLimiter.is_allowed, decide_eq_true_eq]
    rw [hother]
    decide

/-- C5 witness: for user 42 at time 0, the fifth increment still leaves
is_allowed observable as true at the fourth, the sixth observation is
false, and one window later is_allowed is true again. -/
theorem rate_limiter_fixed_window_witness :
    defaultLimiter.is_allowed (incrementN defaultLimiter emptyRateCache 0 "42" 4) 0 "42" = true
    ∧ defaultLimiter.is_allowed (incrementN defaultLimiter emptyRateCache 0 "42" 5) 0 "42" = false
    ∧ defaultLimiter.is_allowed (incrementN defaultLimiter emptyRateCache 0 "42" 5) (0 + 60) "42" = true :=
  ⟨(rate_limiter_fixed_window emptyRateCache 0 "42").2.2.2.2.2.1 4 (by decide),
   (rate_limiter_fixed_window emptyRateCache 0 "42").2.2.2.2.2.2.1,
   (rate_limiter_fixed_window emptyRateCache 0 "42").2.2.2.2.2.2.2 5⟩

theorem audio_keys_ne (objn : String) :
    ("audio_content:" ++ objn) ≠ ("ongoing_audio_content:" ++ objn) := by
  intro h
  have hlen := congrArg String.length h
  simp only [String.length_append] at hlen
  have l1 : ("audio_content:" : String).length = 14 := rfl
  have l2 : ("ongoing_audio_content:" : String).length = 22 := rfl
  omega

theorem audio_fresh_cache_facts (st1 : GatewayCache) (corr objn fid : String) :
    (optimistic_reply_cleanup ((st1.setEx ("audio_content:" ++ objn) fid 600).del
        ("ongoing_audio_content:" ++ objn)) corr).1.strings ("audio_content:" ++ objn)
      = some fid
    ∧ (optimistic_reply_cleanup ((st1.setEx ("audio_content:" ++ objn) fid 600).del
        ("ongoing_audio_content:" ++ objn)) corr).1.strTtls ("audio_content:" ++ objn)
      = some 600
    ∧ (optimistic_reply_cleanup ((st1.setEx ("audio_content:" ++ objn) fid 600).del
        ("ongoing_audio_content:" ++ objn)) corr).1.strings ("ongoing_audio_content:" ++ objn)
      = none := by
  have hne := audio_keys_ne objn
  have hfr := optimistic_frame ((st1.setEx ("audio_content:" ++ objn) fid 600).del
    ("ongoing_audio_content:" ++ objn)) corr
  refine ⟨?_, ?_, ?_⟩
  · rw [hfr.1]
    simp [GatewayCache.del, GatewayCache.setEx, hne]
  · rw [hfr.2]
    simp [GatewayCache.del, GatewayCache.setEx, hne]
  · rw [hfr.1]
    simp [GatewayCache.del]

/-- C6 counterexample: a state where the video interest lock for object h
is held and no content id is cached anywhere.  The claim predicts the
handler defers (sleeps and re-publishes); the video handler instead
proceeds to a fresh delivery, publishes nothing, leaves the lock in
place, stores the platform file id in the redis hash `video_content`
(not under `video_content:{object_name}`) and attaches no TTL. -/
theorem video_ready_no_lock_counterexample :
    videoState.strings "video_content:h" = none
    ∧ videoState.strings "ongoing_video_content:h" = some "ongoing"
    ∧ (video_ready_event_handler videoState "c" readyPayload readyEnv).outcome
        = .deliveredFresh
    ∧ (video_ready_event_handler videoState "c" readyPayload readyEnv).published = []
    ∧ (video_ready_event_handler videoState "c" readyPayload readyEnv).cache.strings
        "ongoing_video_content:h" = some "ongoing"
    ∧ (video_ready_event_handler videoState "c" readyPayload readyEnv).cache.strTtls
        "video_content:h" = none
    ∧ (video_ready_event_handler videoState "c" readyPayload readyEnv).cache.strings
        "video_content:h" = none
    ∧ (video_ready_event_handler videoState "c" readyPayload readyEnv).cache.hashes
        "video_content" "h" = some "fid" :=
  ⟨rfl, rfl, rfl, rfl, rfl, rfl, rfl, rfl⟩

/-- C6 amended (audio only): for a well-formed payload, the audio ready
handler looks up `audio_content:{object_name}` and always attempts the
NX acquisition of `ongoing_audio_content:{object_name}` with TTL 500;
when the lock is already held and no truthy cached id exists it sleeps
and re-publishes an equivalent envelope (same type, correlation id and
payload, fresh timestamp) onto telegram_events leaving the cache
unchanged; when it ends in a fresh delivery it has stored the uploaded
file id under `audio_content:{object_name}` with TTL 600 and deleted the
lock; and on the download-failure path after acquiring the free lock,
the lock is left set to "ongoing" with TTL 500.  The video handler obeys
none of this (see the counterexample). -/
theorem audio_ready_coalescing (st : GatewayCache) (corr tsNew u : String)
    (payload : List (String × Json)) (env : TgEnv) (run : ReadyRun)
    (hu : findPair "presigned_url" payload = some (.str u)) (hne : u ≠ "")
    (hm : truthyJ ((findPair "message_id" payload).getD (.str "")) = true)
    (hc : truthyJ ((findPair "chat_id" payload).getD (.str "")) = true)
    (hrun : audio_ready_event_handler st corr payload tsNew env = run) :
    ((st.strings ("ongoing_audio_content:" ++ env.hashBaseUrl u)).isSome = true →
      truthyOpt (st.strings ("audio_content:" ++ env.hashBaseUrl u)) = false →
      run = { outcome := .republished, cache := st,
              published := [("telegram_events",
                { type := "events.dl.audio.ready", correlation_id := corr, version := 1,
                  timestamp := tsNew, payload := payload, is_rate_limited := false })],
              deletedMessages := [], cleanupFlagSet := false })
    ∧ (run.outcome = .deliveredFresh →
        run.cache.strings ("audio_content:" ++ env.hashBaseUrl u) = env.uploadFileId
        ∧ run.cache.strTtls ("audio_content:" ++ env.hashBaseUrl u) = some 600
        ∧ run.cache.strings ("ongoing_audio_content:" ++ env.hashBaseUrl u) = none)
    ∧ (st.strings ("ongoing_audio_content:" ++ env.hashBaseUrl u) = none →
        run.outcome = .downloadFailed →
        run.cache.strings ("ongoing_audio_content:" ++ env.hashBaseUrl u) = some "ongoing"
        ∧ run.cache.strTtls ("ongoing_audio_content:" ++ env.hashBaseUrl u) = some 500) := by
  unfold audio_ready_event_handler at hrun
  rw [hu] at hrun
  have hturl : truthyJ (Json.str u) = true := by simp [truthyJ, hne]
  simp only [Option.getD_some, hturl, hm, hc, Bool.and_self, Bool.and_true,
    Bool.not_true, Bool.false_eq_true, if_false] at hrun
  by_cases hlockSome : (st.strings ("ongoing_audio_content:" ++ env.hashBaseUrl u)).isSome = true
  · have hacq : st.setNxEx ("ongoing_audio_content:" ++ env.hashBaseUrl u) "ongoing" 500
        = (false, st) := by
      simp [GatewayCache.setNxEx, hlockSome]
    rw [hacq] at hrun
    by_cases hcq : truthyOpt (st.strings ("audio_content:" ++ env.hashBaseUrl u)) = true
    · simp only [hcq, Bool.not_true, Bool.not_false, Bool.and_false, Bool.true_and,
        Bool.false_eq_true, if_false] at hrun
      cases hst : st.hashes ("correlation_id:" ++ corr) "start_time" with
      | none =>
        rw [hst] at hrun
        dsimp only at hrun
        subst hrun
        refine ⟨?_, ?_, ?_⟩
        · intro _ h2
          rw [hcq] at h2
          simp at h2
        · intro hfresh
          simp at hfresh
        · intro hfree _
          rw [hfree] at hlockSome
          simp at hlockSome
      | some stv =>
        rw [hst] at hrun
        dsimp only at hrun
        by_cases hsend : env.sendCachedOk = true
        · simp only [hcq, hsend, Bool.and_self, if_true] at hrun
          subst hrun
          refine ⟨?_, ?_, ?_⟩
          · intro _ h2
            rw [hcq] at h2
            simp at h2
          · intro hfresh
            simp at hfresh
          · intro hfree _
            rw [hfree] at hlockSome
            simp at hlockSome
        · simp only [hcq, hsend, Bool.true_and, Bool.and_false, Bool.false_eq_true,
            if_false] at hrun
          by_cases hdl : (!env.fileExists && !env.httpOk) = true
          · rw [if_pos hdl] at hrun
            subst hrun
            refine ⟨?_, ?_, ?_⟩
            · intro _ h2
              rw [hcq] at h2
              simp at h2
            · intro hfresh
              simp at hfresh
            · intro hfree _
              rw [hfree] at hlockSome
              simp at hlockSome
          · rw [if_neg hdl] at hrun
            cases hfid : env.uploadFileId with
            | none =>
              rw [hfid] at hrun
              dsimp only at hrun
              subst hrun
              refine ⟨?_, ?_, ?_⟩
              · intro _ h2
                rw [hcq] at h2
                simp at h2
              · intro hfresh
                simp at hfresh
              · intro hfree _
                rw [hfree] at hlockSome
                simp at hlockSome
            | some fid =>
              rw [hfid] at hrun
              dsimp only at hrun
              subst hrun
              refine ⟨?_, ?_, ?_⟩
              · intro _ h2
                rw [hcq] at h2
                simp at h2
              · intro _
                exact audio_fresh_cache_facts st corr (env.hashBaseUrl u) fid
              · intro hfree _
                rw [hfree] at hlockSome
                simp at hlockSome
    · have hcqf : truthyOpt (st.strings ("audio_content:" ++ env.hashBaseUrl u)) = false :=
        by simpa using hcq
      simp only [hcqf, Bool.not_false, Bool.and_self, if_true] at hrun
      subst hrun
      refine ⟨?_, ?_, ?_⟩
      · intro _ _
        rfl
      · intro hfresh
        simp at hfresh
      · intro hfree _
        rw [hfree] at hlockSome
        simp at hlockSome
  · have hfree : st.strings ("ongoing_audio_content:" ++ env.hashBaseUrl u) = none :=
      Option.not_isSome_iff_eq_none.mp hlockSome
    have hacq : st.setNxEx ("ongoing_audio_content:" ++ env.hashBaseUrl u) "ongoing" 500
        = (true, st.setEx ("ongoing_audio_content:" ++ env.hashBaseUrl u) "ongoing" 500) := by
      simp [GatewayCache.setNxEx, hfree]
    rw [hacq] at hrun
    simp only [Bool.not_true, Bool.false_and, Bool.false_eq_true, if_false,
      GatewayCache.setEx] at hrun
    cases hst : st.hashes ("correlation_id:" ++ corr) "start_time" with
    | none =>
      rw [hst] at hrun
      dsimp only at hrun
      subst hrun
      refine ⟨?_, ?_, ?_⟩
      · intro h1 _
        rw [hfree] at h1
        simp at h1
      · intro hfresh
        simp at hfresh
      · intro _ hdlf
        simp at hdlf
    | some stv =>
      rw [hst] at hrun
      dsimp only at hrun
      by_cases hcs : (truthyOpt (st.strings ("audio_content:" ++ env.hashBaseUrl u))
          && env.sendCachedOk) = true
      · rw [if_pos hcs] at hrun
        subst hrun
        refine ⟨?_, ?_, ?_⟩
        · intro h1 _
          rw [hfree] at h1
          simp at h1
        · intro hfresh
          simp at hfresh
        · intro _ hdlf
          simp at hdlf
      · rw [if_neg hcs] at hrun
        by_cases hdl : (!env.fileExists && !env.httpOk) = true
        · rw [if_pos hdl] at hrun
          subst hrun
          refine ⟨?_, ?_, ?_⟩
          · intro h1 _
            rw [hfree] at h1
            simp at h1
          · intro hfresh
            simp at hfresh
          · intro _ _
            constructor
            · simp [GatewayCache.setEx]
            · simp [GatewayCache.setEx]
        · rw [if_neg hdl] at hrun
          cases hfid : env.uploadFileId with
          | none =>
            rw [hfid] at hrun
            dsimp only at hrun
            subst hrun
            refine ⟨?_, ?_, ?_⟩
            · intro h1 _
              rw [hfree] at h1
              simp at h1
            · intro hfresh
              simp at hfresh
            · intro _ hdlf
              simp at hdlf
          | some fid =>
            rw [hfid] at hrun
            dsimp only at hrun
            subst hrun
            refine ⟨?_, ?_, ?_⟩
            · intro h1 _
              rw [hfree] at h1
              simp at h1
            · intro _
              exact audio_fresh_cache_facts
                (st.setEx ("ongoing_audio_content:" ++ env.hashBaseUrl u) "ongoing" 500)
                corr (env.hashBaseUrl u) fid
            · intro _ hdlf
              simp at hdlf

/-- C6 amended witness: with the audio lock held and nothing cached, the
handler re-publishes the equivalent envelope onto telegram_events and
leaves the cache untouched. -/
theorem audio_ready_coalescing_witness :
    audio_ready_event_handler audioLockedState "c" readyPayload "ts" readyEnv
      = { outcome := .republished, cache := audioLockedState,
          published := [("telegram_events",
            { type := "events.dl.audio.ready", correlation_id := "c", version := 1,
              timestamp := "ts", payload := readyPayload, is_rate_limited := false })],
          deletedMessages := [], cleanupFlagSet := false } :=
  (audio_ready_coalescing audioLockedState "c" "ts"
    "https://minio.local/video/abc?X-Sig=1" readyPayload readyEnv
    (audio_ready_event_handler audioLockedState "c" readyPayload "ts" readyEnv)
    rfl (by decide) rfl rfl rfl).1 rfl rfl

end HeavyBot
